import Mathlib

set_option autoImplicit false

/-!
# Verification of the HiRezAPI core subsystem

A shallow embedding of the lazy two-tier entity model and the TTL reference
caches of the HiRezAPI library, together with proofs about the lookup
helpers (`utils.get`, `utils.get_name_or_id`), the cache operations
(`get_server_status`, `get_champion_info`), and the partial/full player
protocol (`PartialPlayer._expand`, `PartialPlayer.__eq__`, and the
record-mapping derived operations).

Python exceptions are modelled with `Except`; machine state that survives an
exception (the cache attributes) is returned alongside the `Except` value.
Remote fetch outcomes are passed in explicitly as `Except`-valued arguments,
one per request the modelled operation would issue.
-/

namespace HiRezAPI

/-- Python exception kinds that the lookup helpers can raise. -/
inductive PyErr where
  | typeError
  | attributeError
  | assertionError
  deriving DecidableEq, Repr

/-- A Python literal value (enough for the id/name predicate values used with
`get`). -/
inductive PyLit where
  | int (i : Int)
  | str (s : String)
  deriving DecidableEq, Repr

/-- A Python object as seen by attribute access: a literal leaf, or an object
with named attributes (so dotted attribute paths can reach nested fields). -/
inductive PyObj where
  | lit (v : PyLit)
  | obj (fields : List (String × PyObj))

/-- Python `==` between an attribute value and a predicate value: literal
values compare by value; a non-literal object compared with anything else
falls back to identity semantics, which is `False` for distinct objects. -/
def pyEq : PyObj → PyObj → Bool
  | .lit a, .lit b => a == b
  | _, _ => false

/-- Single attribute access; raises `AttributeError` when the attribute is
absent (or when the receiver is a bare literal). -/
def getAttr : PyObj → String → Except PyErr PyObj
  | .obj fields, name =>
    match fields.lookup name with
    | some v => .ok v
    | none => .error .attributeError
  | .lit _, _ => .error .attributeError

/-- `operator.attrgetter` applied along a dotted path: chained attribute
access, propagating `AttributeError`. -/
def attrget (path : List String) (e : PyObj) : Except PyErr PyObj :=
  match path with
  | [] => .ok e
  | n :: ns =>
    match getAttr e n with
    | .ok v => attrget ns v
    | .error err => .error err

/-- `attr.replace('__', '.')` followed by splitting into path components, as
`get` prepares each keyword-argument name for `attrgetter`. -/
def pathOf (attr : String) : List String :=
  (attr.replace "__" ".").splitOn "."

/-- The inner `for getter, val in getters` loop of `get`: `True` when every
getter's value equals its expected value (the `for`/`else` falls through),
`False` on the first mismatch (`break`), propagating any `AttributeError`. -/
def matchAll (e : PyObj) : List (List String × PyObj) → Except PyErr Bool
  | [] => .ok true
  | (path, val) :: rest =>
    match attrget path e with
    | .error err => .error err
    | .ok v => if pyEq v val then matchAll e rest else .ok false

/-- The outer `for element in iterable` loop of `get`: first element for which
all getters match, else `None`. -/
def getLoop (iterable : List PyObj) (getters : List (List String × PyObj)) :
    Except PyErr (Option PyObj) :=
  match iterable with
  | [] => .ok none
  | e :: rest =>
    match matchAll e getters with
    | .error err => .error err
    | .ok true => .ok (some e)
    | .ok false => getLoop rest getters

/-- `utils.get(iterable, **attrs)`. The keyword-argument dict is modelled as
the list of its (name, value) pairs. On the single-attribute fast path the
source runs `attr, val = attrs.pop()`; `dict.pop` requires at least one
positional argument, so that call raises `TypeError` before touching the
iterable. With any other number of attributes the general path builds the
getter list and scans the iterable. -/
def get (iterable : List PyObj) (attrs : List (String × PyObj)) :
    Except PyErr (Option PyObj) :=
  if attrs.length = 1 then
    .error .typeError
  else
    getLoop iterable (attrs.map fun av => (pathOf av.1, av.2))

/-- The runtime type of the `name_or_id` argument of `get_name_or_id`: an
`int`, a `str`, or a value of any other type. -/
inductive NameOrId where
  | intKey (i : Int)
  | strKey (s : String)
  | otherKey
  deriving DecidableEq, Repr

/-- `utils.get_name_or_id(iterable, name_or_id)`: dispatches on the key's
runtime type; an `int` key delegates to `get` with an `id` predicate, a `str`
key to `get` with a `name` predicate. There is no `else` branch in the
source, so any other key type falls off the end of the function and returns
`None`. -/
def get_name_or_id (iterable : List PyObj) (name_or_id : NameOrId) :
    Except PyErr (Option PyObj) :=
  match name_or_id with
  | .intKey i => get iterable [("id", .lit (.int i))]
  | .strKey s => get iterable [("name", .lit (.str s))]
  | .otherKey => .ok none

/-- A transport-level failure raised by the Fetcher (`Endpoint.request`); the
transport layer is an external collaborator, so the error is a single
uninterpreted kind. -/
inductive TransportErr where
  | transportError
  deriving DecidableEq, Repr

/-- One record of the `gethirezserverstatus` response, restricted to the
fields `ServerStatus.__init__` reads. -/
structure StatusData where
  environment : String
  platform : String
  limited_access : Bool
  status : String
  version : String
  deriving DecidableEq, Repr

/-- The per-platform/per-environment status dict built for each record:
`{"limited_access": ..., "up": s["status"] == "UP", "version": ...}`. -/
structure EnvStatus where
  limited_access : Bool
  up : Bool
  version : String
  deriving DecidableEq, Repr

/-- `utils.ServerStatus`: `all_up` / `limited_access` aggregates over the
live-environment records, plus the attributes installed with `setattr`
(keyed by environment name for non-live records, platform name for live
ones), modelled as an association list. -/
structure ServerStatus where
  all_up : Bool
  limited_access : Bool
  entries : List (String × EnvStatus)
  deriving DecidableEq, Repr

/-- Python `setattr` on the status object: replace an existing attribute of
that name, else add it. -/
def setEntry (entries : List (String × EnvStatus)) (name : String)
    (st : EnvStatus) : List (String × EnvStatus) :=
  match entries with
  | [] => [(name, st)]
  | (n, v) :: rest =>
    if n = name then (n, st) :: rest else (n, v) :: setEntry rest name st

/-- One iteration of the `for s in status_data` loop of
`ServerStatus.__init__`. -/
def ServerStatus.step (acc : ServerStatus) (s : StatusData) : ServerStatus :=
  let st : EnvStatus := ⟨s.limited_access, s.status == "UP", s.version⟩
  if s.environment != "live" then
    { acc with entries := setEntry acc.entries s.environment st }
  else
    { all_up := acc.all_up && st.up
      limited_access := acc.limited_access || st.limited_access
      entries := setEntry acc.entries s.platform st }

/-- `ServerStatus(status_data)`: starts from `all_up = True`,
`limited_access = False` and folds the records in order. -/
def ServerStatus.ofData (status_data : List StatusData) : ServerStatus :=
  status_data.foldl ServerStatus.step ⟨true, false, []⟩

/-- The staleness test of `get_server_status`: the attribute is `None`, or
`now >= self.server_status[1]` (the stored expiry timestamp). Time is in
seconds. -/
def statusStale (server_status : Option (ServerStatus × Nat)) (now : Nat) :
    Bool :=
  match server_status with
  | none => true
  | some (_, expiry) => decide (expiry ≤ now)

/-- The observable outcome of one `get_server_status` call: the returned
value (or the propagated transport error), the `server_status` attribute
after the call, and the number of Fetcher invocations issued. -/
structure StatusCall where
  result : Except TransportErr (Option ServerStatus)
  state : Option (ServerStatus × Nat)
  fetches : Nat
  deriving Repr

/-- `PaladinsAPI.get_server_status(force_refresh)`: check-then-fetch-then-
replace with a 1-minute TTL (the stored timestamp is `now + 60` seconds, the
expiry). A refresh is attempted when the attribute is `None`, expired, or
`force_refresh` is set; the fetched response replaces the entry only when
non-empty (an exception from the fetch propagates, leaving the attribute
untouched). The value returned is the first component of whatever entry is
stored after the refresh step, or `None` if there is none. -/
def get_server_status (server_status : Option (ServerStatus × Nat))
    (now : Nat) (fetch : Except TransportErr (List StatusData))
    (force_refresh : Bool) : StatusCall :=
  if statusStale server_status now || force_refresh then
    match fetch with
    | .error e => ⟨.error e, server_status, 1⟩
    | .ok response =>
      let state :=
        if response.isEmpty then server_status
        else some (ServerStatus.ofData response, now + 60)
      ⟨.ok (state.map Prod.fst), state, 1⟩
  else
    ⟨.ok (server_status.map Prod.fst), server_status, 0⟩

/-- A raw JSON record of a catalog response (`getgods` / `getitems`); its
fields are mapped by out-of-scope collaborators, so it is kept as an
uninterpreted association of field names to values. -/
structure JsonRec where
  fields : List (String × String)
  deriving DecidableEq, Repr

/-- A response-language key; the `Language` enumeration is an out-of-scope
collaborator, modelled by its numeric `value` tag. -/
abbrev Language := Nat

/-- Modelled from the spec: `ChampionInfo` (the Reference Bundle) is defined
in `cache.py`, which is not part of the sources; the spec describes it as an
immutable language-scoped aggregate built from one atomic pair of responses
(champion catalog, item catalog), so it is modelled as that pair. -/
structure ChampionInfo where
  champions_response : List JsonRec
  items_response : List JsonRec
  deriving DecidableEq, Repr

/-- The `DataCache` entry map: language key to `(value, populated_at)`;
absent entry = never successfully populated. -/
abbrev DataCacheState := Language → Option (ChampionInfo × Nat)

/-- Modelled from the spec: `DataCache._needs_refreshing` is defined in the
missing `cache.py`; per the spec an entry is stale when absent or when
`now - populated_at >= 12 hours`. Time is in seconds, so 12 hours = 43200. -/
def needs_refreshing (cache : DataCacheState) (language : Language)
    (now : Nat) : Bool :=
  match cache language with
  | none => true
  | some (_, populated_at) => decide (populated_at + 43200 ≤ now)

/-- Modelled from the spec: `DataCache.__setitem__` is defined in the missing
`cache.py`; per the spec it builds the Bundle from the fetched pair and
replaces the entry as a whole with `(bundle, now)`. -/
def cacheStore (cache : DataCacheState) (language : Language)
    (champions items : List JsonRec) (now : Nat) : DataCacheState :=
  fun l =>
    if l = language then some (⟨champions, items⟩, now) else cache l

/-- The observable outcome of one `get_champion_info` call: the returned
value (or the propagated transport error), the cache map after the call, and
the number of Fetcher invocations issued. -/
structure ChampionInfoCall where
  result : Except TransportErr (Option ChampionInfo)
  cache : DataCacheState
  fetches : Nat

/-- `PaladinsAPI.get_champion_info(language, force_refresh)`: when the entry
is stale or `force_refresh` is set, issue the `getgods` fetch and then the
`getitems` fetch (an exception from either propagates, leaving the cache
untouched; the second fetch is not issued when the first raises). Only when
both responses are non-empty is the entry replaced. The value returned is
the entry's value in the cache after the refresh step (`DataCache` reads
with `.get`, so an absent entry yields `None`). -/
def get_champion_info (cache : DataCacheState) (now : Nat)
    (fetchChampions fetchItems : Except TransportErr (List JsonRec))
    (language : Language) (force_refresh : Bool) : ChampionInfoCall :=
  if needs_refreshing cache language now || force_refresh then
    match fetchChampions with
    | .error e => ⟨.error e, cache, 1⟩
    | .ok champions_response =>
      match fetchItems with
      | .error e => ⟨.error e, cache, 2⟩
      | .ok items_response =>
        if !champions_response.isEmpty && !items_response.isEmpty then
          let cache' :=
            cacheStore cache language champions_response items_response now
          ⟨.ok ((cache' language).map Prod.fst), cache', 2⟩
        else
          ⟨.ok ((cache language).map Prod.fst), cache, 2⟩
  else
    ⟨.ok ((cache language).map Prod.fst), cache, 0⟩

/-- Whether a refresh's fetch pair counts as fully successful: both calls
returned without raising and both responses are non-empty — the exact guard
under which `get_champion_info` replaces the cache entry. -/
def bothSucceedNonEmpty
    (fetchChampions fetchItems : Except TransportErr (List JsonRec)) : Bool :=
  match fetchChampions, fetchItems with
  | .ok c, .ok i => !c.isEmpty && !i.isEmpty
  | _, _ => false

end HiRezAPI

namespace Arez

/-- A platform tag; the `Platform` enumeration is an out-of-scope
collaborator, modelled by its numeric tag, with `0` standing for
`Platform.Unknown` (the constructor's default). -/
abbrev PlatformTag := Int

/-- A response-language key, as in the cache layer. -/
abbrev Language := Nat

/-- `player.PartialPlayer`: the minimal identity-bearing reference — integer
id (`0` = unknown/absent sentinel), display name (empty when unknown), and
platform tag. The `Platform.get` normalisation of the constructor belongs to
the out-of-scope enumeration collaborator and is applied before these fields
are populated. The `_api` back-reference is the Fetcher collaborator handle
and carries no data. -/
structure PartialPlayer where
  id : Int
  name : String
  platform : PlatformTag
  deriving DecidableEq, Repr

/-- The `PartialPlayer.private` property: the profile is treated as Private
exactly when the id is the sentinel `0`. (`private` is a Lean keyword, hence
the Lean name.) -/
def PartialPlayer.isPrivate (p : PartialPlayer) : Bool :=
  p.id == 0

/-- The identity-determining fields of one `getplayer` response record, as
read by `Player.__init__` through `PartialPlayer.__init__`; the statistics
fields it also maps (level, playtime, ranked stats, ...) belong to the
out-of-scope field-mapper collaborators and are not modelled. -/
structure PlayerData where
  «Id» : Int
  «Name» : String
  «Platform» : PlatformTag
  deriving DecidableEq, Repr

/-- `player.Player`: the full entity; it extends `PartialPlayer`, so a
`Player` is accepted anywhere a `PartialPlayer` is. -/
structure Player extends PartialPlayer where
  deriving DecidableEq, Repr

/-- `Player(api, player_data)`: constructs the full entity from one response
record (`super().__init__` with the record's `Id`, `Name`, `Platform`). -/
def Player.ofData (player_data : PlayerData) : Player :=
  { id := player_data.Id, name := player_data.Name,
    platform := player_data.Platform }

/-- Exceptions raised by the player operations: `arez.exceptions.Private`,
or a propagated transport error from the Fetcher. -/
inductive ArezErr where
  | «Private»
  | transport (e : HiRezAPI.TransportErr)
  deriving DecidableEq, Repr

/-- `PartialPlayer._expand()`: if the profile is Private (id `0`), raise
`Private` before issuing any request; otherwise issue the single `getplayer`
request (`fetch` is its outcome), returning a `Player` built from the first
record when the response is non-empty and `None` when it is empty. The
second component counts the Fetcher invocations issued. -/
def PartialPlayer.expand (p : PartialPlayer)
    (fetch : Except HiRezAPI.TransportErr (List PlayerData)) :
    Except ArezErr (Option Player) × Nat :=
  if p.isPrivate then
    (.error .Private, 0)
  else
    match fetch with
    | .error e => (.error (.transport e), 1)
    | .ok [] => (.ok none, 1)
    | .ok (r :: _) => (.ok (some (Player.ofData r)), 1)

/-- The Python classes relevant to `PartialPlayer.__eq__`'s
`isinstance(other, self.__class__)` assertion. -/
inductive PyClass where
  | cPartialPlayer
  | cPlayer
  | cOther
  deriving DecidableEq, Repr

/-- Python `isinstance` restricted to these classes: `Player` subclasses
`PartialPlayer`, so a `Player` instance is an instance of both; nothing else
is an instance of either. -/
def isinstance (vClass c : PyClass) : Bool :=
  match vClass, c with
  | .cPartialPlayer, .cPartialPlayer => true
  | .cPlayer, .cPlayer => true
  | .cPlayer, .cPartialPlayer => true
  | _, _ => false

/-- A runtime operand of `PartialPlayer.__eq__`: a plain `PartialPlayer`
instance, a `Player` instance, or a value of any unrelated class. -/
inductive PyVal where
  | pp (p : PartialPlayer)
  | fp (p : Player)
  | nonPlayer
  deriving DecidableEq, Repr

/-- The dynamic class (`self.__class__` / `type(v)`) of an operand. -/
def PyVal.cls : PyVal → PyClass
  | .pp _ => .cPartialPlayer
  | .fp _ => .cPlayer
  | .nonPlayer => .cOther

/-- The `id` attribute of an operand; only read after the `isinstance`
assertion has passed, so the value on `nonPlayer` is irrelevant. -/
def PyVal.pid : PyVal → Int
  | .pp p => p.id
  | .fp p => p.id
  | .nonPlayer => 0

/-- `PartialPlayer.__eq__(self, other)`: asserts
`isinstance(other, self.__class__)` — the *dynamic* class of the left
operand — raising `AssertionError` when it fails, then returns
`self.id != 0 and other.id != 0 and self.id == other.id`. -/
def dunderEq (self other : PyVal) : Except HiRezAPI.PyErr Bool :=
  if isinstance other.cls self.cls then
    .ok (self.pid != 0 && other.pid != 0 && self.pid == other.pid)
  else
    .error .assertionError

/-- One record of the `getfriends` response; `get_friends` reads
`player_id` and `name`. Every record of the remote service also carries the
designated result-message field `ret_msg` (empty when there is no message),
which this endpoint's mapper never inspects. -/
structure FriendData where
  player_id : Int
  name : String
  ret_msg : String
  deriving DecidableEq, Repr

/-- `PartialPlayer.get_friends()`: raises `Private` for a private profile,
otherwise maps *every* record of the response into a `PartialPlayer` (with
the constructor's default platform `0`) — there is no result-message or
empty-signal check on this endpoint. -/
def PartialPlayer.get_friends (p : PartialPlayer)
    (response : List FriendData) : Except ArezErr (List PartialPlayer) :=
  if p.isPrivate then
    .error .Private
  else
    .ok (response.map fun fr => ⟨fr.player_id, fr.name, 0⟩)

/-- One record of the `getmatchhistory` response, restricted to the
designated result-message field `ret_msg` that `get_match_history` inspects;
the per-match statistic fields belong to out-of-scope mappers. -/
structure MatchData where
  ret_msg : String
  deriving DecidableEq, Repr

/-- `match.PartialMatch(player, language, data)`: the partial sub-entity
built for each match-history record; its statistics mapping is out of scope,
so it is modelled as the constructor's three arguments. -/
structure PartialMatch where
  player : PartialPlayer
  language : Language
  data : MatchData
  deriving DecidableEq, Repr

/-- `PartialPlayer.get_match_history(language)`: raises `Private` for a
private profile; the `get_champion_info(language)` prerequisite only touches
the reference cache (modelled separately) and does not affect the value
computed here. An empty response, or a response whose first record has a
non-empty `ret_msg`, yields `[]`; otherwise every record is mapped into a
`PartialMatch`. -/
def PartialPlayer.get_match_history (p : PartialPlayer) (language : Language)
    (response : List MatchData) : Except ArezErr (List PartialMatch) :=
  if p.isPrivate then
    .error .Private
  else
    match response with
    | [] => .ok []
    | m :: _ =>
      if m.ret_msg != "" then .ok []
      else .ok (response.map fun md => ⟨p, language, md⟩)

/-- One record of the `getplayerloadouts` response, restricted to the fields
`get_loadouts` inspects (`playerId`, with `ret_msg` carried along as on
every record of the remote service). -/
structure LoadoutData where
  playerId : Int
  ret_msg : String
  deriving DecidableEq, Repr

/-- `items.Loadout(player, language, data)`: the sub-entity built for each
loadout record; its field mapping is out of scope, so it is modelled as the
constructor's three arguments. -/
structure Loadout where
  player : PartialPlayer
  language : Language
  data : LoadoutData
  deriving DecidableEq, Repr

/-- `PartialPlayer.get_loadouts(language)`: raises `Private` for a private
profile; empty-signal check `not response or not response[0]["playerId"]` —
an empty response, or a first record with a falsy (zero) `playerId`, yields
`[]`; otherwise every record is mapped into a `Loadout`. The `ret_msg`
field is not inspected by this endpoint. -/
def PartialPlayer.get_loadouts (p : PartialPlayer) (language : Language)
    (response : List LoadoutData) : Except ArezErr (List Loadout) :=
  if p.isPrivate then
    .error .Private
  else
    match response with
    | [] => .ok []
    | l :: _ =>
      if l.playerId == 0 then .ok []
      else .ok (response.map fun ld => ⟨p, language, ld⟩)

end Arez

/-! ## Claims -/

/-- C1: GetReferenceBundle is atomic per refresh — whenever the
champion-catalog/item-catalog fetch pair is not fully successful (either
fetch raises or returns empty), `get_champion_info` leaves the cache map
exactly as it was, and any bundle it returns is the previously cached one;
a bundle built from only one successful fetch is never stored or returned. -/
theorem C1_atomic_bundle_refresh (cache : HiRezAPI.DataCacheState) (now : Nat)
    (fc fi : Except HiRezAPI.TransportErr (List HiRezAPI.JsonRec))
    (language : HiRezAPI.Language) (force : Bool)
    (h : HiRezAPI.bothSucceedNonEmpty fc fi = false) :
    (HiRezAPI.get_champion_info cache now fc fi language force).cache = cache ∧
    ∀ b, (HiRezAPI.get_champion_info cache now fc fi language force).result
        = .ok (some b) → (cache language).map Prod.fst = some b := by
  unfold HiRezAPI.bothSucceedNonEmpty at h
  unfold HiRezAPI.get_champion_info
  split
  · split
    · exact ⟨rfl, fun b hb => by simp at hb⟩
    · split
      · exact ⟨rfl, fun b hb => by simp at hb⟩
      · split
        · simp_all
        · exact ⟨rfl, fun b hb => by simpa using hb⟩
  · exact ⟨rfl, fun b hb => by simpa using hb⟩

/-- C1 witness: a forced refresh whose two fetches both return empty leaves
an empty cache empty. -/
theorem C1_atomic_bundle_refresh_witness :
    (HiRezAPI.get_champion_info (fun _ => none) 0 (.ok []) (.ok []) 1
        true).cache = (fun _ => (none : Option (HiRezAPI.ChampionInfo × Nat))) :=
  (C1_atomic_bundle_refresh (fun _ => none) 0 (.ok []) (.ok []) 1 true rfl).1

/-- C2 counterexample: the claim says the two cache operations never raise a
transport error to their caller, but a transport error raised by the refresh
fetch propagates unchanged out of both `get_server_status` and
`get_champion_info` (the source has no exception handler around
`self.request`). -/
theorem C2_transport_error_reaches_caller :
    (HiRezAPI.get_server_status none 0 (.error .transportError) false).result
        = .error .transportError ∧
    (HiRezAPI.get_champion_info (fun _ => none) 0 (.error .transportError)
        (.ok []) 1 false).result = .error .transportError :=
  ⟨rfl, rfl⟩

/-- C2 amended: when a refresh fetch completes without raising but returns an
empty response, both operations return the previously cached value (absent if
none) and leave their state untouched; a transport error raised by a fetch,
however, propagates to the caller. -/
theorem C2_empty_refresh_degrades (st : Option (HiRezAPI.ServerStatus × Nat))
    (now now2 : Nat) (force force2 : Bool) (cache : HiRezAPI.DataCacheState)
    (language : HiRezAPI.Language) (champions items : List HiRezAPI.JsonRec) :
    (HiRezAPI.get_server_status st now (.ok []) force).result
        = .ok (st.map Prod.fst) ∧
    (HiRezAPI.get_server_status st now (.ok []) force).state = st ∧
    (HiRezAPI.get_champion_info cache now2 (.ok []) (.ok items) language
        force2).result = .ok ((cache language).map Prod.fst) ∧
    (HiRezAPI.get_champion_info cache now2 (.ok []) (.ok items) language
        force2).cache = cache ∧
    (HiRezAPI.get_champion_info cache now2 (.ok champions) (.ok []) language
        force2).result = .ok ((cache language).map Prod.fst) ∧
    (HiRezAPI.get_champion_info cache now2 (.ok champions) (.ok []) language
        force2).cache = cache := by
  unfold HiRezAPI.get_server_status HiRezAPI.get_champion_info
  refine ⟨?_, ?_, ?_, ?_, ?_, ?_⟩ <;> (repeat' split) <;> simp_all

/-- C3: expanding a partial player whose id is the sentinel `0` raises
`Private` and issues zero Fetcher invocations, whatever the (never consulted)
fetch outcome would have been. -/
theorem C3_expand_private_no_fetch (p : Arez.PartialPlayer)
    (fetch : Except HiRezAPI.TransportErr (List Arez.PlayerData))
    (h : p.id = 0) :
    p.expand fetch = (.error .Private, 0) := by
  simp [Arez.PartialPlayer.expand, Arez.PartialPlayer.isPrivate, h]

/-- C3 witness: the zero-id partial player. -/
theorem C3_expand_private_no_fetch_witness :
    Arez.PartialPlayer.expand ⟨0, "", 0⟩ (.ok []) = (.error .Private, 0) :=
  C3_expand_private_no_fetch ⟨0, "", 0⟩ (.ok []) rfl

/-- C4 (code bug): `get` with exactly one attribute predicate takes the
single-attribute fast path, where `attr, val = attrs.pop()` calls `dict.pop`
with no arguments and raises `TypeError`; evaluated at a failing input — a
one-element iterable that does match the single `id` predicate — the call
raises instead of returning that element. -/
theorem C4_single_predicate_raises_type_error :
    HiRezAPI.get
        [HiRezAPI.PyObj.obj [("id", HiRezAPI.PyObj.lit (HiRezAPI.PyLit.int 1))]]
        [("id", HiRezAPI.PyObj.lit (HiRezAPI.PyLit.int 1))]
        = .error HiRezAPI.PyErr.typeError :=
  rfl

/-- C5: for partial players compared within their own class, `__eq__` returns
`True` exactly when both ids are non-zero and equal; a zero-id player is
equal to nothing, itself included. -/
theorem C5_partial_entity_equality (a b : Arez.PartialPlayer) :
    (Arez.dunderEq (.pp a) (.pp b) = .ok true
        ↔ a.id ≠ 0 ∧ b.id ≠ 0 ∧ a.id = b.id) ∧
    (a.id = 0 → Arez.dunderEq (.pp a) (.pp a) = .ok false) ∧
    (a.id = 0 ∨ b.id = 0 → Arez.dunderEq (.pp a) (.pp b) = .ok false) := by
  refine ⟨?_, ?_, ?_⟩
  · simp [Arez.dunderEq, Arez.isinstance, Arez.PyVal.cls, Arez.PyVal.pid,
      and_assoc]
  · intro h
    simp [Arez.dunderEq, Arez.isinstance, Arez.PyVal.cls, Arez.PyVal.pid, h]
  · intro h
    rcases h with h | h <;>
      simp [Arez.dunderEq, Arez.isinstance, Arez.PyVal.cls, Arez.PyVal.pid, h]

/-- C5 witness: the zero-id player is unequal to itself and to a non-zero-id
player. -/
theorem C5_partial_entity_equality_witness :
    Arez.dunderEq (.pp ⟨0, "", 0⟩) (.pp ⟨0, "", 0⟩) = .ok false ∧
    Arez.dunderEq (.pp ⟨0, "", 0⟩) (.pp ⟨5, "x", 0⟩) = .ok false :=
  ⟨(C5_partial_entity_equality ⟨0, "", 0⟩ ⟨0, "", 0⟩).2.1 rfl,
   (C5_partial_entity_equality ⟨0, "", 0⟩ ⟨5, "x", 0⟩).2.2 (Or.inl rfl)⟩

/-- C6 counterexample: the claim says a key of any type other than `int` or
`str` is a programming-error precondition violation, but `get_name_or_id`
has no `else` branch — such a key falls off the end of the function and
returns `None` without any error. -/
theorem C6_other_key_returns_none :
    HiRezAPI.get_name_or_id [HiRezAPI.PyObj.lit (HiRezAPI.PyLit.int 7)]
        HiRezAPI.NameOrId.otherKey = .ok none :=
  rfl

/-- C6 amended: `get_name_or_id` dispatches on the key's runtime type — an
integer key yields exactly the result of `get` with an `id`-equality
predicate, a text key exactly the result of `get` with a `name`-equality
predicate, and a key of any other type yields `None` (no error). -/
theorem C6_dispatch_by_key_type (iterable : List HiRezAPI.PyObj) (i : Int)
    (s : String) :
    HiRezAPI.get_name_or_id iterable (.intKey i)
        = HiRezAPI.get iterable [("id", .lit (.int i))] ∧
    HiRezAPI.get_name_or_id iterable (.strKey s)
        = HiRezAPI.get iterable [("name", .lit (.str s))] ∧
    HiRezAPI.get_name_or_id iterable .otherKey = .ok none :=
  ⟨rfl, rfl, rfl⟩

/-- C7: a `get_server_status` call at `t0` that refreshes and fetches a
non-empty response stores `(value, t0 + 60)`; any later call strictly before
`t0 + 60` seconds with `force_refresh = False` returns that identical stored
value, leaves the entry unchanged, and issues zero Fetcher invocations. -/
theorem C7_status_cache_stability (st0 : Option (HiRezAPI.ServerStatus × Nat))
    (force : Bool) (t0 t1 : Nat) (resp : List HiRezAPI.StatusData)
    (fetch2 : Except HiRezAPI.TransportErr (List HiRezAPI.StatusData))
    (hfetch : (HiRezAPI.statusStale st0 t0 || force) = true)
    (hresp : resp ≠ []) (ht : t1 < t0 + 60) :
    HiRezAPI.get_server_status st0 t0 (.ok resp) force
        = ⟨.ok (some (HiRezAPI.ServerStatus.ofData resp)),
           some (HiRezAPI.ServerStatus.ofData resp, t0 + 60), 1⟩ ∧
    HiRezAPI.get_server_status
        (some (HiRezAPI.ServerStatus.ofData resp, t0 + 60)) t1 fetch2 false
        = ⟨.ok (some (HiRezAPI.ServerStatus.ofData resp)),
           some (HiRezAPI.ServerStatus.ofData resp, t0 + 60), 0⟩ := by
  have hne : resp.isEmpty = false := by
    simpa [List.isEmpty_iff] using hresp
  have hstale : HiRezAPI.statusStale
      (some (HiRezAPI.ServerStatus.ofData resp, t0 + 60)) t1 = false := by
    simp [HiRezAPI.statusStale]
    omega
  constructor
  · simp [HiRezAPI.get_server_status, hfetch, hne]
  · simp [HiRezAPI.get_server_status, hstale]

/-- C7 witness: empty cache populated at `t0 = 0`, re-read at `t1 = 59`. -/
theorem C7_status_cache_stability_witness :
    HiRezAPI.get_server_status none 0
        (.ok [⟨"live", "pc", false, "UP", "1"⟩]) false
        = ⟨.ok (some (HiRezAPI.ServerStatus.ofData
              [⟨"live", "pc", false, "UP", "1"⟩])),
           some (HiRezAPI.ServerStatus.ofData
              [⟨"live", "pc", false, "UP", "1"⟩], 0 + 60), 1⟩ ∧
    HiRezAPI.get_server_status
        (some (HiRezAPI.ServerStatus.ofData
            [⟨"live", "pc", false, "UP", "1"⟩], 0 + 60)) 59 (.ok []) false
        = ⟨.ok (some (HiRezAPI.ServerStatus.ofData
              [⟨"live", "pc", false, "UP", "1"⟩])),
           some (HiRezAPI.ServerStatus.ofData
              [⟨"live", "pc", false, "UP", "1"⟩], 0 + 60), 0⟩ :=
  C7_status_cache_stability none false 0 59 [⟨"live", "pc", false, "UP", "1"⟩]
    (.ok []) rfl (List.cons_ne_nil _ _) (by omega)

/-- C8 counterexample: the claim says the friend-list and loadout mappings
also treat a single record with a non-empty result-message field as an empty
result, but `get_friends` performs no such check and maps the record into a
`PartialPlayer`, and `get_loadouts` keys its check on `playerId` alone, so a
record with a non-empty `ret_msg` but non-zero `playerId` is mapped into a
`Loadout`. -/
theorem C8_error_record_still_mapped :
    Arez.PartialPlayer.get_friends ⟨1, "x", 0⟩ [⟨0, "", "Error Message"⟩]
        = .ok [⟨0, "", 0⟩] ∧
    Arez.PartialPlayer.get_loadouts ⟨1, "x", 0⟩ 1 [⟨5, "Error Message"⟩]
        = .ok [⟨⟨1, "x", 0⟩, 1, ⟨5, "Error Message"⟩⟩] :=
  ⟨rfl, rfl⟩

/-- C8 amended: only the match-history mapping inspects the result-message
field — a response whose first record has a non-empty `ret_msg` yields `[]`;
the loadout mapping instead yields `[]` exactly when its first record's
`playerId` is zero; the friend-list mapping performs no empty-signal check
and maps every record. -/
theorem C8_empty_signal_per_endpoint (p : Arez.PartialPlayer)
    (language : Arez.Language) (m : Arez.MatchData) (ms : List Arez.MatchData)
    (l : Arez.LoadoutData) (ls : List Arez.LoadoutData)
    (friends : List Arez.FriendData)
    (hp : p.id ≠ 0) (hm : m.ret_msg ≠ "") (hl : l.playerId = 0) :
    p.get_match_history language (m :: ms) = .ok [] ∧
    p.get_loadouts language (l :: ls) = .ok [] ∧
    p.get_friends friends
        = .ok (friends.map fun fr => ⟨fr.player_id, fr.name, 0⟩) := by
  refine ⟨?_, ?_, ?_⟩ <;>
    simp [Arez.PartialPlayer.get_match_history,
      Arez.PartialPlayer.get_loadouts, Arez.PartialPlayer.get_friends,
      Arez.PartialPlayer.isPrivate, hp, hm, hl]

/-- C8 amended witness: a non-private player, an error-message match record,
a zero-`playerId` loadout record, and an empty friend response. -/
theorem C8_empty_signal_per_endpoint_witness :
    Arez.PartialPlayer.get_match_history ⟨1, "x", 0⟩ 1 [⟨"Error Message"⟩]
        = .ok [] ∧
    Arez.PartialPlayer.get_loadouts ⟨1, "x", 0⟩ 1 [⟨0, ""⟩] = .ok [] ∧
    Arez.PartialPlayer.get_friends ⟨1, "x", 0⟩ []
        = .ok (([] : List Arez.FriendData).map
            fun fr => ⟨fr.player_id, fr.name, 0⟩) :=
  C8_empty_signal_per_endpoint ⟨1, "x", 0⟩ 1 ⟨"Error Message"⟩ [] ⟨0, ""⟩ [] []
    (by simp) (by simp) rfl

/-- C9: expanding a partial player with a non-zero id issues one fetch; an
empty response yields the explicit not-found outcome `None` (no error), and
a non-empty response yields a full `Player` built from its first record. -/
theorem C9_expand_not_found_or_full (p : Arez.PartialPlayer)
    (r : Arez.PlayerData) (rs : List Arez.PlayerData) (h : p.id ≠ 0) :
    p.expand (.ok []) = (.ok none, 1) ∧
    p.expand (.ok (r :: rs)) = (.ok (some (Arez.Player.ofData r)), 1) := by
  constructor <;>
    simp [Arez.PartialPlayer.expand, Arez.PartialPlayer.isPrivate, h]

/-- C9 witness: a non-zero-id player against both fetch outcomes. -/
theorem C9_expand_not_found_or_full_witness :
    Arez.PartialPlayer.expand ⟨1, "", 0⟩ (.ok []) = (.ok none, 1) ∧
    Arez.PartialPlayer.expand ⟨1, "", 0⟩ (.ok [⟨2, "n", 0⟩])
        = (.ok (some (Arez.Player.ofData ⟨2, "n", 0⟩)), 1) :=
  C9_expand_not_found_or_full ⟨1, "", 0⟩ ⟨2, "n", 0⟩ [] (by simp)

/-- C10: `__eq__` asserts the right operand is an instance of the left
operand's dynamic class, so comparing against any value of a foreign class
raises `AssertionError` instead of returning `False`; in particular a full
`Player` on the left compared against a plain `PartialPlayer` on the right
fails the assertion. -/
theorem C10_eq_assertion_on_foreign_class (self v : Arez.PyVal)
    (q : Arez.Player) (w : Arez.PartialPlayer)
    (h : Arez.isinstance v.cls self.cls = false) :
    Arez.dunderEq self v = .error .assertionError ∧
    Arez.dunderEq (.fp q) (.pp w) = .error .assertionError := by
  constructor
  · simp [Arez.dunderEq, h]
  · rfl

/-- C10 witness: a partial player compared against a non-player value. -/
theorem C10_eq_assertion_on_foreign_class_witness :
    Arez.dunderEq (.pp ⟨1, "", 0⟩) .nonPlayer = .error .assertionError :=
  (C10_eq_assertion_on_foreign_class (.pp ⟨1, "", 0⟩) .nonPlayer ⟨⟨1, "", 0⟩⟩
    ⟨1, "", 0⟩ rfl).1
